import Mathlib

/-!
Shallow embedding of the `tidy` terminal file browser (src/main.rs, src/ctx.rs)
together with the spec-modelled signal/driver plumbing that `src/ctx.rs` consumes
but whose definitions are not present under `src/`.
-/

namespace Tidy

/-- Rust `PathBuf`, modelled by its string form. -/
abbrev PathBuf := String

/-- Terminal key codes matched by the program: the `crossterm::event::KeyCode`
variants the code inspects, plus a catch-all for every other key. `KeyEvent`
patterns in the source ignore modifiers, so a key event is just its code here. -/
inductive KeyCode where
  | Char (c : Char)
  | Up
  | Down
  | Other
deriving DecidableEq

/-- Modelled from the spec: the Snapshot (`DirInfo`) passed to render and input
handling, `{ path, files }` (spec section 3). `DirInfo` is consumed by `src/ctx.rs`
but its definition is not under `src/`. -/
structure DirInfo where
  path : String
  files : List PathBuf
deriving DecidableEq

/-- Modelled from the spec: the Message payload carried between contexts; the one
concrete case is `FileSelected(path)` (spec section 3), written `Msg::File` at its
use sites in `src/ctx.rs`. `Msg` is not defined under `src/`. -/
inductive Msg where
  | File (path : PathBuf)
deriving DecidableEq

/-- Context identity: stands for `std::any::TypeId` of the two context types, used
as the switch and message targets in `src/ctx.rs`. -/
inductive CtxId where
  | MainCtx
  | TaggingCtx
deriving DecidableEq

/-- Modelled from the spec: a Signal is `Quit`, a context switch (written
`Signal::Change` at its use sites in `src/ctx.rs`), a message delivery (written
`Signal::Message`), or an ordered composite of signals (spec section 3). The
`Signal` type is used by `src/ctx.rs` but not defined under `src/`. -/
inductive Signal where
  | Quit
  | Change (id : CtxId)
  | Message (id : CtxId) (msg : Msg)
  | And (a b : Signal)
deriving DecidableEq

/-- Modelled from the spec: signal composition `a.and(b)` — order-preserving and
associative up to decomposition (spec section 3). -/
def Signal.and (a b : Signal) : Signal := Signal.And a b

/-- Modelled from the spec: a primitive signal, one of `Quit`, `SwitchTo(identity)`,
`DeliverMessage(identity, message)` (spec section 3). -/
inductive Prim where
  | Quit
  | SwitchTo (id : CtxId)
  | DeliverMessage (id : CtxId) (msg : Msg)
deriving DecidableEq

/-- Modelled from the spec: decomposition of a signal into its ordered list of
primitive components (spec sections 3 and 4.3 step 4). -/
def Signal.decompose : Signal → List Prim
  | .Quit => [.Quit]
  | .Change i => [.SwitchTo i]
  | .Message i m => [.DeliverMessage i m]
  | .And a b => a.decompose ++ b.decompose

/-- The `Command` enum of `src/main.rs`, also produced by the first match of
`MainContext::handle_key` in `src/ctx.rs`. `Command::None` is rendered `NoCommand`. -/
inductive Command where
  | Quit
  | NoCommand
  | CursorUp
  | CursorDown
  | Tag
deriving DecidableEq

/-- The key-to-command decoding shared by `State::handle_key` in `src/main.rs` and
the first match of `MainContext::handle_key` in `src/ctx.rs`: `q` quits, `Up`/`k`
moves up, `j`/`Down` moves down, `t` tags, anything else is `Command::None`. -/
def commandOfKey : KeyCode → Command
  | .Char 'q' => .Quit
  | .Up => .CursorUp
  | .Char 'k' => .CursorUp
  | .Char 'j' => .CursorDown
  | .Down => .CursorDown
  | .Char 't' => .Tag
  | _ => .NoCommand

/-- Rust `usize` subtraction: `a - b` panics (`none`) on underflow. -/
def usizeSub (a b : Nat) : Option Nat :=
  if b ≤ a then some (a - b) else none

/-- `tui::widgets::ListState`, restricted to the `selected` index, the only part
the program reads (`selected()`) and writes (`select(..)`). -/
structure ListState where
  selected : Option Nat
deriving DecidableEq

namespace Ctx

/-- `MainContext` from `src/ctx.rs`: the file-list cursor state and the (unused)
selection list. -/
structure MainContext where
  file_list_state : ListState
  selection : List PathBuf
deriving DecidableEq

/-- `MainContext::handle_key` from `src/ctx.rs`. The result is `none` exactly when
the Rust code panics (`Option::unwrap` on `None`, index out of bounds, or `usize`
underflow); otherwise `some` of the updated context and the returned optional
signal. -/
def MainContext.handle_key (self : MainContext) (code : KeyCode) (state : DirInfo) :
    Option (MainContext × Option Signal) :=
  match commandOfKey code with
  | .CursorUp =>
    match self.file_list_state.selected with
    | some selected =>
      let len := state.files.length
      if selected > 0 then
        some ({ self with file_list_state := ⟨some (selected - 1)⟩ }, none)
      else
        match usizeSub len 1 with
        | some v => some ({ self with file_list_state := ⟨some v⟩ }, none)
        | none => none
    | none => some (self, none)
  | .CursorDown =>
    match self.file_list_state.selected with
    | some selected =>
      let len := state.files.length
      match usizeSub len 1 with
      | some lenm1 =>
        if selected ≥ lenm1 then
          some ({ self with file_list_state := ⟨some 0⟩ }, none)
        else
          some ({ self with file_list_state := ⟨some (selected + 1)⟩ }, none)
      | none => none
    | none => some (self, none)
  | .NoCommand => some (self, none)
  | .Tag =>
    match self.file_list_state.selected with
    | some sel =>
      match state.files.get? sel with
      | some f =>
        some (self, some ((Signal.Change .TaggingCtx).and
          (Signal.Message .TaggingCtx (Msg.File f))))
      | none => none
    | none => none
  | .Quit => some (self, some Signal.Quit)

/-- `MainContext::send` from `src/ctx.rs`: the body is empty, so the state is
returned unchanged for every message. -/
def MainContext.send (self : MainContext) (msg : Msg) : MainContext := self

/-- `TaggingContext` from `src/ctx.rs`: the tag entries and the bound file. -/
structure TaggingContext where
  tag_input : List String
  file_path : Option PathBuf
deriving DecidableEq

/-- `TaggingContext::handle_key` from `src/ctx.rs`: only `q` is recognized,
yielding a switch back to `MainContext`; every other key returns no signal. This
handler cannot panic. -/
def TaggingContext.handle_key (self : TaggingContext) (code : KeyCode)
    (di : DirInfo) : TaggingContext × Option Signal :=
  match code with
  | .Char 'q' => (self, some (Signal.Change .MainCtx))
  | _ => (self, none)

/-- `TaggingContext::send` from `src/ctx.rs`: a `Msg::File` message binds the
delivered path as the tagged file. -/
def TaggingContext.send (self : TaggingContext) (msg : Msg) : TaggingContext :=
  match msg with
  | .File path => { self with file_path := some path }

/-- A point in time as produced by `std::time::SystemTime`; its only use here is
being fed to the formatter closure. -/
abbrev SystemTime := Nat

/-- `std::fs::Metadata`, restricted to the three timestamp accessors the program
calls; `none` models the `io::Result` error case "timestamp unavailable on this
platform". -/
structure Metadata where
  created : Option SystemTime
  accessed : Option SystemTime
  modified : Option SystemTime
deriving DecidableEq

/-- `metadata_str` from `src/ctx.rs` (an identical copy sits in `src/main.rs`):
each timestamp is obtained as `metadata.xxx().map(formatter).unwrap()`, so an
unavailable timestamp panics (`none`). The chrono-based `formatter` closure is an
external collaborator and is passed as a parameter. -/
def metadata_str (formatter : SystemTime → String) (metadata : Metadata) :
    Option String :=
  match metadata.created.map formatter with
  | none => none
  | some created =>
    match metadata.accessed.map formatter with
    | none => none
    | some accessed =>
      match metadata.modified.map formatter with
      | none => none
      | some modified =>
        some ("Created: " ++ created ++ ", Accessed: " ++ accessed ++
          ", Modified: " ++ modified)

end Ctx

/-- Modelled from the spec: the Driver's registry state — one live instance per
context identity plus the active identity (spec sections 2, 4.2, 4.3); `quit`
records that a `Quit` primitive terminated the loop. The registry and the
signal-applying driver are not under `src/` (the loop in `src/main.rs` predates
the contexts and ignores the `Tag` command). -/
structure DriverState where
  active : CtxId
  main_ctx : Ctx.MainContext
  tagging_ctx : Ctx.TaggingContext
  quit : Bool
deriving DecidableEq

/-- Modelled from the spec: apply an ordered list of primitive signals (spec
section 4.3 step 4): `Quit` terminates the loop, `SwitchTo` updates the active
identity, `DeliverMessage` calls the target context's receive-message operation. -/
def applyPrims : DriverState → List Prim → DriverState
  | ds, [] => ds
  | ds, p :: rest =>
    match p with
    | .Quit => { ds with quit := true }
    | .SwitchTo i => applyPrims { ds with active := i } rest
    | .DeliverMessage i m =>
      match i with
      | .MainCtx => applyPrims { ds with main_ctx := ds.main_ctx.send m } rest
      | .TaggingCtx =>
        applyPrims { ds with tagging_ctx := ds.tagging_ctx.send m } rest

/-- Modelled from the spec: one Driver iteration after the blocking read (spec
section 4.3 steps 3 and 4): route the key to the active context's input handler,
then decompose and apply the returned signal. `none` propagates a panic from the
handler. -/
def driverStep (di : DirInfo) (ds : DriverState) (code : KeyCode) :
    Option DriverState :=
  if ds.quit then some ds
  else
    match ds.active with
    | .MainCtx =>
      match ds.main_ctx.handle_key code di with
      | none => none
      | some (m, sig) =>
        let ds1 := { ds with main_ctx := m }
        match sig with
        | none => some ds1
        | some s => some (applyPrims ds1 s.decompose)
    | .TaggingCtx =>
      match ds.tagging_ctx.handle_key code di with
      | (t, sig) =>
        let ds1 := { ds with tagging_ctx := t }
        match sig with
        | none => some ds1
        | some s => some (applyPrims ds1 s.decompose)

/-- Modelled from the spec: the Driver loop run over a finite sequence of key
events against a fixed snapshot (spec section 4.3). -/
def driverRun (di : DirInfo) : DriverState → List KeyCode → Option DriverState
  | ds, [] => some ds
  | ds, k :: rest =>
    match driverStep di ds k with
    | none => none
    | some ds1 => driverRun di ds1 rest

/-- Repeated application of `MainContext::handle_key` over a list of keys,
threading the context state and dropping the emitted signals; `none` propagates a
panic. Used to state the cursor-movement algebra of spec section 8. -/
def afterKeys (di : DirInfo) : Ctx.MainContext → List KeyCode → Option Ctx.MainContext
  | self, [] => some self
  | self, k :: rest =>
    match Ctx.MainContext.handle_key self k di with
    | some (s, _) => afterKeys di s rest
    | none => none

/-- The history store of `src/main.rs`: the `dirs` table (rowid is position + 1;
`path` is declared UNIQUE) and the `files` table (rows `(path, path_id)`; no
uniqueness constraint is declared), matching the two `CREATE TABLE` statements. -/
structure Db where
  dirs : List String
  files : List (String × Nat)
deriving DecidableEq

/-- `INSERT OR IGNORE INTO dirs (path) VALUES (?)` in `src/main.rs`: the UNIQUE
constraint on `path` makes a duplicate insert a no-op. -/
def insertOrIgnoreDir (dirs : List String) (path : String) : List String :=
  if path ∈ dirs then dirs else dirs ++ [path]

/-- `SELECT id FROM dirs WHERE path = ?` followed by `.next()` in `src/main.rs`:
the rowid of the first matching row, if any. -/
def selectDirId (dirs : List String) (path : String) : Option Nat :=
  if path ∈ dirs then some (dirs.indexOf path + 1) else none

/-- `INSERT OR IGNORE INTO files (path, path_id) VALUES (?, ?)` in `src/main.rs`:
the `files` table declares no UNIQUE constraint, so OR IGNORE never fires and
every insert appends a row. -/
def insertFile (files : List (String × Nat)) (path : String) (path_id : Nat) :
    List (String × Nat) :=
  files ++ [(path, path_id)]

/-- The startup persistence step of `main` in `src/main.rs` (lines 148-184):
create the tables if absent, insert the canonical working directory into `dirs`
(OR IGNORE), look its rowid up, and insert every file of the listing into
`files`. -/
def startupPersist (db : Db) (dirPath : String) (fileList : List String) : Db :=
  let dirs1 := insertOrIgnoreDir db.dirs dirPath
  match selectDirId dirs1 dirPath with
  | some name =>
    { dirs := dirs1,
      files := fileList.foldl (fun fs p => insertFile fs p name) db.files }
  | none => { db with dirs := dirs1 }

/-- `Opts` from `src/main.rs`: the one optional positional argument. -/
structure Opts where
  directory : Option PathBuf
deriving DecidableEq

/-- The `Context` enum of `src/main.rs` (distinct from the `ctx.rs` trait objects):
its `MainContext` variant has the same two fields as `ctx::MainContext`, its
`TaggingContext` variant only the tag-input list. -/
inductive Context where
  | Main (c : Ctx.MainContext)
  | Tagging (tag_input : List String)
deriving DecidableEq

/-- `State` from `src/main.rs`. -/
structure State where
  path : String
  file_list_state : ListState
  context : Context
deriving DecidableEq

/-- `State::new` from `src/main.rs`: resolve the target directory (the positional
argument, else the current working directory), canonicalize it, and build the
initial state with `file_list_state.select(Some(0))` and a fresh default-state
`MainContext`. The environment lookup (`current_dir`) and `canonicalize` (with
the following UTF-8 conversion) are external and passed as parameters; `none`
models the `unwrap` panics when the directory cannot be resolved. The directory's
contents are never consulted. -/
def State.new (current_dir : Option PathBuf)
    (canonicalize : PathBuf → Option PathBuf) (opts : Opts) : Option State :=
  match opts.directory.or current_dir with
  | none => none
  | some d =>
    match canonicalize d with
    | none => none
    | some directory =>
      some { path := directory,
             file_list_state := ⟨some 0⟩,
             context := .Main { file_list_state := ⟨none⟩, selection := [] } }

/-! Helper lemmas: single cursor steps of `MainContext::handle_key`. -/

theorem handle_key_down_step (sel : List PathBuf) (di : DirInfo) (j : Nat)
    (hN : 1 ≤ di.files.length) :
    Ctx.MainContext.handle_key ⟨⟨some j⟩, sel⟩ (KeyCode.Char 'j') di
      = some (⟨⟨some (if di.files.length - 1 ≤ j then 0 else j + 1)⟩, sel⟩, none) := by
  have hc : commandOfKey (KeyCode.Char 'j') = Command.CursorDown := rfl
  have h1 : usizeSub di.files.length 1 = some (di.files.length - 1) := by
    simp [usizeSub, hN]
  simp only [Ctx.MainContext.handle_key, hc, h1]
  split <;> simp_all

theorem handle_key_up_step (sel : List PathBuf) (di : DirInfo) (j : Nat)
    (hN : 1 ≤ di.files.length) :
    Ctx.MainContext.handle_key ⟨⟨some j⟩, sel⟩ (KeyCode.Char 'k') di
      = some (⟨⟨some (if 0 < j then j - 1 else di.files.length - 1)⟩, sel⟩, none) := by
  have hc : commandOfKey (KeyCode.Char 'k') = Command.CursorUp := rfl
  have h1 : usizeSub di.files.length 1 = some (di.files.length - 1) := by
    simp [usizeSub, hN]
  simp only [Ctx.MainContext.handle_key, hc, h1]
  split <;> simp_all

theorem afterKeys_down_replicate (di : DirInfo) (sel : List PathBuf)
    (hN : 1 ≤ di.files.length) :
    ∀ (k j : Nat), j < di.files.length →
      afterKeys di ⟨⟨some j⟩, sel⟩ (List.replicate k (KeyCode.Char 'j'))
        = some ⟨⟨some ((j + k) % di.files.length)⟩, sel⟩ := by
  intro k
  induction k with
  | zero =>
    intro j hj
    simp [afterKeys, Nat.mod_eq_of_lt hj]
  | succ n ih =>
    intro j hj
    rw [List.replicate_succ]
    have hstep := handle_key_down_step sel di j hN
    simp only [afterKeys, hstep]
    have hj2 : (if di.files.length - 1 ≤ j then 0 else j + 1) < di.files.length := by
      split <;> omega
    rw [ih _ hj2]
    have hmod : (if di.files.length - 1 ≤ j then 0 else j + 1)
        = (j + 1) % di.files.length := by
      by_cases hcase : di.files.length - 1 ≤ j
      · have hj1 : j + 1 = di.files.length := by omega
        simp [hcase, hj1, Nat.mod_self]
      · have hlt : j + 1 < di.files.length := by omega
        simp [hcase, Nat.mod_eq_of_lt hlt]
    have hadd : ((j + 1) % di.files.length + n) % di.files.length
        = (j + (n + 1)) % di.files.length := by
      rw [Nat.mod_add_mod]
      congr 1
      omega
    rw [hmod, hadd]

/-! Claim theorems. -/

/-- C1: starting from the listing `["a.txt", "b.txt", "c.txt"]` with selected
index 0, running the Driver loop on cursor-down, cursor-down, cursor-down (which
wraps), tag-request leaves the selection at index 0 and makes `TaggingContext`
the active context with bound file `"a.txt"`. -/
theorem C1_driver_scenario :
    driverRun (DirInfo.mk "dir" ["a.txt", "b.txt", "c.txt"])
      (DriverState.mk .MainCtx ⟨⟨some 0⟩, []⟩ ⟨[], none⟩ false)
      [KeyCode.Char 'j', KeyCode.Char 'j', KeyCode.Char 'j', KeyCode.Char 't']
      = some (DriverState.mk .TaggingCtx ⟨⟨some 0⟩, []⟩ ⟨[], some "a.txt"⟩ false) := by
  rfl

/-- C2 (code-bug record): on an empty file list with no selected index, cursor-up
and cursor-down are signal-free no-ops as the claim says, but a tag request makes
`MainContext::handle_key` panic (`Option::unwrap` on `None` at the file lookup)
instead of being dropped silently. -/
theorem C2_empty_list_tag_panics :
    Ctx.MainContext.handle_key ⟨⟨none⟩, []⟩ (KeyCode.Char 't') (DirInfo.mk "d" [])
      = none ∧
    Ctx.MainContext.handle_key ⟨⟨none⟩, []⟩ (KeyCode.Char 'k') (DirInfo.mk "d" [])
      = some (⟨⟨none⟩, []⟩, none) ∧
    Ctx.MainContext.handle_key ⟨⟨none⟩, []⟩ (KeyCode.Char 'j') (DirInfo.mk "d" [])
      = some (⟨⟨none⟩, []⟩, none) :=
  ⟨rfl, rfl, rfl⟩

/-- C3: a tag request while index `i` is selected (with `i < N`) returns a
composite signal whose ordered decomposition is exactly one `SwitchTo
TaggingContext` followed by exactly one `DeliverMessage TaggingContext
(FileSelected files[i])`, and nothing else. -/
theorem C3_tag_signal (self : Ctx.MainContext) (di : DirInfo) (i : Nat)
    (hsel : self.file_list_state.selected = some i) (hi : i < di.files.length) :
    ∃ s : Signal,
      Ctx.MainContext.handle_key self (KeyCode.Char 't') di = some (self, some s) ∧
      s.decompose = [Prim.SwitchTo .TaggingCtx,
        Prim.DeliverMessage .TaggingCtx (Msg.File (di.files.get ⟨i, hi⟩))] ∧
      s.decompose.count (Prim.SwitchTo .TaggingCtx) = 1 ∧
      s.decompose.count
        (Prim.DeliverMessage .TaggingCtx (Msg.File (di.files.get ⟨i, hi⟩))) = 1 := by
  have hc : commandOfKey (KeyCode.Char 't') = Command.Tag := rfl
  have hget : di.files.get? i = some (di.files.get ⟨i, hi⟩) := List.get?_eq_get hi
  refine ⟨(Signal.Change .TaggingCtx).and
    (Signal.Message .TaggingCtx (Msg.File (di.files.get ⟨i, hi⟩))), ?_, rfl, ?_, ?_⟩
  · simp only [Ctx.MainContext.handle_key, hc, hsel, hget]
  · simp [Signal.and, Signal.decompose, List.count_cons]
  · simp [Signal.and, Signal.decompose, List.count_cons]

/-- C3 witness: the concrete instance with one file and index 0. -/
theorem C3_tag_signal_witness :
    (⟨⟨some 0⟩, []⟩ : Ctx.MainContext).file_list_state.selected = some 0 ∧
    0 < (DirInfo.mk "d" ["a.txt"]).files.length ∧
    ∃ s : Signal,
      Ctx.MainContext.handle_key ⟨⟨some 0⟩, []⟩ (KeyCode.Char 't')
          (DirInfo.mk "d" ["a.txt"]) = some (⟨⟨some 0⟩, []⟩, some s) ∧
      s.decompose = [Prim.SwitchTo .TaggingCtx,
        Prim.DeliverMessage .TaggingCtx (Msg.File "a.txt")] := by
  refine ⟨rfl, by decide, ?_⟩
  obtain ⟨s, h1, h2, -, -⟩ :=
    C3_tag_signal ⟨⟨some 0⟩, []⟩ (DirInfo.mk "d" ["a.txt"]) 0 rfl (by decide)
  exact ⟨s, h1, h2⟩

/-- C4 (code-bug record): running the startup persistence step twice against the
same canonical directory `"d"` with the unchanged file list `["f"]` leaves one
`dirs` row but two identical `files` rows — the `files` table declares no UNIQUE
constraint for `INSERT OR IGNORE` to act on, so the step is not idempotent. -/
theorem C4_duplicate_file_rows :
    startupPersist (startupPersist (Db.mk [] []) "d" ["f"]) "d" ["f"]
      = Db.mk ["d"] [("f", 1), ("f", 1)] := by
  rfl

/-- C5 counterexample: with the created timestamp unavailable (and the other two
present), `metadata_str` fails (panics) — it does not render any string, in
particular none substituting a placeholder. -/
theorem C5_counterexample :
    Ctx.metadata_str (fun _ => "ts") (Ctx.Metadata.mk none (some 0) (some 0))
      = none := by
  rfl

/-- C5 amended: whenever one or more of the created/accessed/modified timestamps
is unavailable, the metadata formatting used during render fails (panics via
`Result::unwrap`) rather than substituting a placeholder string. -/
theorem C5_unavailable_timestamp_fails (formatter : Ctx.SystemTime → String)
    (m : Ctx.Metadata)
    (h : m.created = none ∨ m.accessed = none ∨ m.modified = none) :
    Ctx.metadata_str formatter m = none := by
  obtain ⟨c, a, mo⟩ := m
  cases c <;> cases a <;> cases mo <;> simp_all [Ctx.metadata_str]

/-- C5 witness: a concrete metadata value missing only its created timestamp. -/
theorem C5_unavailable_timestamp_fails_witness :
    ((Ctx.Metadata.mk none (some 1) (some 2)).created = none ∨
      (Ctx.Metadata.mk none (some 1) (some 2)).accessed = none ∨
      (Ctx.Metadata.mk none (some 1) (some 2)).modified = none) ∧
    Ctx.metadata_str (fun _ => "") (Ctx.Metadata.mk none (some 1) (some 2))
      = none :=
  ⟨Or.inl rfl,
    C5_unavailable_timestamp_fails (fun _ => "") (Ctx.Metadata.mk none (some 1) (some 2))
      (Or.inl rfl)⟩

/-- C6 counterexample: in `TaggingContext` the `q` key does not return the `Quit`
signal (it returns a switch back to `MainContext`). -/
theorem C6_counterexample :
    (Ctx.TaggingContext.handle_key ⟨[], none⟩ (KeyCode.Char 'q')
        (DirInfo.mk "d" [])).2 ≠ some Signal.Quit := by
  decide

/-- C6 amended: for every snapshot and every context state, handling `q` in
`MainContext` returns exactly the primitive `Quit` signal with the state
unchanged, while handling `q` in `TaggingContext` returns exactly the primitive
`SwitchTo MainContext` signal with the state unchanged — neither is a composite. -/
theorem C6_quit_and_return (mc : Ctx.MainContext) (tc : Ctx.TaggingContext)
    (di : DirInfo) :
    Ctx.MainContext.handle_key mc (KeyCode.Char 'q') di
      = some (mc, some Signal.Quit) ∧
    Ctx.TaggingContext.handle_key tc (KeyCode.Char 'q') di
      = (tc, some (Signal.Change .MainCtx)) :=
  ⟨rfl, rfl⟩

/-- C7: for a file list of length `N ≥ 1` and a selected index `i < N`, `N`
cursor-down key presses return the selection to index `i` (wrap-around cycle
law); the rest of the context state is untouched and no step panics. -/
theorem C7_cursor_down_cycle (di : DirInfo) (sel : List PathBuf) (i : Nat)
    (hN : 1 ≤ di.files.length) (hi : i < di.files.length) :
    afterKeys di ⟨⟨some i⟩, sel⟩
        (List.replicate di.files.length (KeyCode.Char 'j'))
      = some ⟨⟨some i⟩, sel⟩ := by
  rw [afterKeys_down_replicate di sel hN di.files.length i hi]
  rw [Nat.add_mod_right, Nat.mod_eq_of_lt hi]

/-- C7 witness: three files, starting index 1. -/
theorem C7_cursor_down_cycle_witness :
    1 ≤ (DirInfo.mk "d" ["a", "b", "c"]).files.length ∧
    1 < (DirInfo.mk "d" ["a", "b", "c"]).files.length ∧
    afterKeys (DirInfo.mk "d" ["a", "b", "c"]) ⟨⟨some 1⟩, []⟩
        (List.replicate (DirInfo.mk "d" ["a", "b", "c"]).files.length
          (KeyCode.Char 'j'))
      = some ⟨⟨some 1⟩, []⟩ :=
  ⟨by decide, by decide,
    C7_cursor_down_cycle (DirInfo.mk "d" ["a", "b", "c"]) [] 1 (by decide) (by decide)⟩

/-- C8: for a file list of length `N ≥ 1` and a selected index `i < N`, cursor-up
then cursor-down, and cursor-down then cursor-up, are each the identity on the
context state (in particular on `selected_index`). -/
theorem C8_up_down_identity (di : DirInfo) (sel : List PathBuf) (i : Nat)
    (hN : 1 ≤ di.files.length) (hi : i < di.files.length) :
    afterKeys di ⟨⟨some i⟩, sel⟩ [KeyCode.Char 'k', KeyCode.Char 'j']
      = some ⟨⟨some i⟩, sel⟩ ∧
    afterKeys di ⟨⟨some i⟩, sel⟩ [KeyCode.Char 'j', KeyCode.Char 'k']
      = some ⟨⟨some i⟩, sel⟩ := by
  constructor
  · have h1 := handle_key_up_step sel di i hN
    have h2 := handle_key_down_step sel di
      (if 0 < i then i - 1 else di.files.length - 1) hN
    simp only [afterKeys, h1, h2]
    have : (if di.files.length - 1 ≤ (if 0 < i then i - 1 else di.files.length - 1)
        then 0 else (if 0 < i then i - 1 else di.files.length - 1) + 1) = i := by
      split <;> split <;> omega
    rw [this]
  · have h1 := handle_key_down_step sel di i hN
    have h2 := handle_key_up_step sel di
      (if di.files.length - 1 ≤ i then 0 else i + 1) hN
    simp only [afterKeys, h1, h2]
    have : (if 0 < (if di.files.length - 1 ≤ i then 0 else i + 1)
        then (if di.files.length - 1 ≤ i then 0 else i + 1) - 1
        else di.files.length - 1) = i := by
      split <;> split <;> omega
    rw [this]

/-- C8 witness: three files, starting index 0 (the wrap case for cursor-up). -/
theorem C8_up_down_identity_witness :
    1 ≤ (DirInfo.mk "d" ["a", "b", "c"]).files.length ∧
    0 < (DirInfo.mk "d" ["a", "b", "c"]).files.length ∧
    (afterKeys (DirInfo.mk "d" ["a", "b", "c"]) ⟨⟨some 0⟩, []⟩
        [KeyCode.Char 'k', KeyCode.Char 'j'] = some ⟨⟨some 0⟩, []⟩ ∧
      afterKeys (DirInfo.mk "d" ["a", "b", "c"]) ⟨⟨some 0⟩, []⟩
        [KeyCode.Char 'j', KeyCode.Char 'k'] = some ⟨⟨some 0⟩, []⟩) :=
  ⟨by decide, by decide,
    C8_up_down_identity (DirInfo.mk "d" ["a", "b", "c"]) [] 0 (by decide) (by decide)⟩

/-- C9: `MainContext::send` has an empty body, so delivering any message to
`MainContext` is a no-op: the whole state (`file_list_state` selection and the
selection list alike) is unchanged. -/
theorem C9_main_send_noop (mc : Ctx.MainContext) (msg : Msg) :
    Ctx.MainContext.send mc msg = mc :=
  rfl

/-- C10: whenever `State::new` succeeds (the target directory resolves and
canonicalizes), the resulting state's file-list selection is `Some 0`; the
directory's contents are never consulted, so this holds for the empty directory
as well. -/
theorem C10_state_new_selects_zero (current_dir : Option PathBuf)
    (canonicalize : PathBuf → Option PathBuf) (opts : Opts) (st : State)
    (h : State.new current_dir canonicalize opts = some st) :
    st.file_list_state.selected = some 0 := by
  unfold State.new at h
  split at h
  · cases h
  · split at h
    · cases h
    · cases h
      rfl

/-- C10 witness: no positional argument, current directory `"cwd"`, identity-like
canonicalization. -/
theorem C10_state_new_selects_zero_witness :
    State.new (some "cwd") some (Opts.mk none)
      = some (State.mk "cwd" ⟨some 0⟩ (.Main ⟨⟨none⟩, []⟩)) ∧
    (State.mk "cwd" ⟨some 0⟩ (.Main ⟨⟨none⟩, []⟩)).file_list_state.selected
      = some 0 :=
  ⟨rfl, C10_state_new_selects_zero (some "cwd") some (Opts.mk none)
    (State.mk "cwd" ⟨some 0⟩ (.Main ⟨⟨none⟩, []⟩)) rfl⟩

end Tidy
